import Mathlib

/-!
Shallow embedding of the EOM-Scraper incremental-sync core
(src/storage/state_manager.py, src/core/api_client.py, src/main.py).

Modelling conventions:
* Instants (Python `datetime`, UTC) are integers counting seconds, so
  `timedelta(hours=1)` is `3600`.
* The string field `last_check_timestamp` is partitioned by how Python's
  `datetime.fromisoformat` treats it after the `Z` replacement:
  `TsString.empty` is the empty string (falsy), `TsString.iso t` is a valid
  ISO-8601 rendering of the instant `t` (what `isoformat()` produces), and
  `TsString.invalid raw` is a non-empty string on which parsing raises
  `ValueError`.
* Each call of `datetime.now(timezone.utc)` is a distinct sample supplied by
  the environment (`RunEnv` below, or an explicit `now` argument).
* External I/O (the HTTP fetch, the SMTP test, per-item transform/delivery)
  is supplied by the environment: a `FetchResult` for the single fetch of a
  run and an `ItemOutcome` attached to each feed item.
-/

namespace EOM

/-- Partition of the stored timestamp strings by parseability
(see module docstring). -/
inductive TsString where
  | empty : TsString
  | iso : Int → TsString
  | invalid : String → TsString
deriving DecidableEq

/-- `ScraperState` dataclass of src/storage/state_manager.py. -/
structure ScraperState where
  last_check_timestamp : TsString
  processed_post_ids : Finset Int
  total_posts_processed : Nat
  last_successful_run : TsString
  errors_count : Nat
deriving DecidableEq

/-- A JSON object intended as a serialized state: each field of the schema is
present or absent (`data.get` with a default fills the gaps). -/
structure StateDict where
  last_check_timestamp : Option TsString
  processed_post_ids : Option (List Int)
  total_posts_processed : Option Nat
  last_successful_run : Option TsString
  errors_count : Option Nat
deriving DecidableEq

/-- `ScraperState.from_dict`: every field read with `data.get` and a default
(`''` for the timestamp strings, `[]` for the id list, `0` for the counters);
the id list is passed through `set(...)`. -/
def from_dict (data : StateDict) : ScraperState :=
  { last_check_timestamp := data.last_check_timestamp.getD .empty
    processed_post_ids := (data.processed_post_ids.getD []).toFinset
    total_posts_processed := data.total_posts_processed.getD 0
    last_successful_run := data.last_successful_run.getD .empty
    errors_count := data.errors_count.getD 0 }

/-- What `json.load` produced for the state file, as seen by
`StateManager.load_state`. -/
inductive LoadedFile where
  | missing : LoadedFile
  | invalidJson : LoadedFile
  | jsonAtom : LoadedFile
  | jsonObject : StateDict → LoadedFile
deriving DecidableEq

/-- `StateManager._create_initial_state`: fresh state with the watermark set
to the current instant. -/
def create_initial_state (now : Int) : ScraperState :=
  { last_check_timestamp := .iso now
    processed_post_ids := ∅
    total_posts_processed := 0
    last_successful_run := .empty
    errors_count := 0 }

/-- `StateManager.load_state`.  A missing file or a `json.JSONDecodeError`
(`LoadedFile.invalidJson`) falls back to the fresh state; a file whose JSON
top level is not an object (`LoadedFile.jsonAtom`, e.g. the file `[]`) makes
`data.get` raise `AttributeError`, which the `except (json.JSONDecodeError,
KeyError)` clause does not catch, so the exception escapes to the caller. -/
def load_state (f : LoadedFile) (now : Int) : Except String ScraperState :=
  match f with
  | .missing => .ok (create_initial_state now)
  | .invalidJson => .ok (create_initial_state now)
  | .jsonAtom => .error "AttributeError"
  | .jsonObject data => .ok (from_dict data)

/-- `StateManager.update_last_check`: stores `timestamp.isoformat()`. -/
def update_last_check (s : ScraperState) (timestamp : Int) : ScraperState :=
  { s with last_check_timestamp := .iso timestamp }

/-- `StateManager.mark_post_processed`. -/
def mark_post_processed (s : ScraperState) (post_id : Int) : ScraperState :=
  if post_id ∈ s.processed_post_ids then s
  else
    { s with
      processed_post_ids := insert post_id s.processed_post_ids
      total_posts_processed := s.total_posts_processed + 1 }

/-- `StateManager.is_post_processed`. -/
def is_post_processed (s : ScraperState) (post_id : Int) : Bool :=
  post_id ∈ s.processed_post_ids

/-- `StateManager.mark_successful_run`: stores the current instant. -/
def mark_successful_run (s : ScraperState) (now : Int) : ScraperState :=
  { s with last_successful_run := .iso now }

/-- `StateManager.increment_error_count`. -/
def increment_error_count (s : ScraperState) : ScraperState :=
  { s with errors_count := s.errors_count + 1 }

/-- `StateManager.get_last_check_datetime`: an empty timestamp string is
falsy and skips the parse; a parse failure (`ValueError`) is caught; both
fall back to `now - timedelta(hours=1)`. -/
def get_last_check_datetime (s : ScraperState) (now : Int) : Int :=
  match s.last_check_timestamp with
  | .iso t => t
  | .empty => now - 3600
  | .invalid _ => now - 3600

/-- `StateManager.cleanup_old_processed_ids`: when the set holds more than
`keep_recent * 1.5` ids (for integer sizes, `2 * card > 3 * keep_recent`
renders the float comparison exactly), keep only the `keep_recent` largest
ids — `sorted(ids, reverse=True)[:keep_recent]`, embedded as the ascending
`Finset.sort` reversed and truncated. -/
def cleanup_old_processed_ids (s : ScraperState) (keep_recent : Nat := 1000) :
    ScraperState :=
  if 2 * s.processed_post_ids.card > 3 * keep_recent then
    { s with
      processed_post_ids :=
        (((s.processed_post_ids.sort (· ≤ ·)).reverse).take keep_recent).toFinset }
  else s

/-! Source Feed Adapter (src/core/api_client.py) and the orchestrator
(src/main.py).  The single HTTP round trip of a run and the behaviour of the
transform/delivery pipeline on each item are data supplied by the
environment. -/

/-- What the transform + delivery pipeline does with one item inside
`_process_articles`: `process_article`/`create_email_content` raises
(`exn`, caught by the per-item handler), `send_article_email` returns
`False` (`sendFail`), or it returns `True` (`sendOk`). -/
inductive ItemOutcome where
  | exn : ItemOutcome
  | sendFail : ItemOutcome
  | sendOk : ItemOutcome
deriving DecidableEq

/-- A raw feed item (one JSON object of the `/posts` response).  `id` is
`post.get('id')` (`none` for a missing or null id); `premiumMarker` records
whether the rendered content contains the paywall marker string; `outcome`
is the environment's behaviour for this item (see `ItemOutcome`). -/
structure Post where
  id : Option Int
  premiumMarker : Bool
  outcome : ItemOutcome
deriving DecidableEq

/-- Outcome of the HTTP GET inside `EOMAPIClient._make_request`:
a 200 response with a JSON list body, a non-200 status, or a raised
`requests.exceptions.RequestException`. -/
inductive FetchResult where
  | ok : List Post → FetchResult
  | httpError : Nat → FetchResult
  | netExn : FetchResult
deriving DecidableEq

/-- Transport failure as §7 of the spec uses the phrase: the request raised
or came back with a non-200 status. -/
def FetchResult.isTransportFailure : FetchResult → Bool
  | .ok _ => false
  | .httpError _ => true
  | .netExn => true

/-- `EOMAPIClient._make_request`: a non-200 status or a raised request
exception is logged and turned into `None`. -/
def make_request (r : FetchResult) : Option (List Post) :=
  match r with
  | .ok posts => some posts
  | .httpError _ => none
  | .netExn => none

/-- `EOMAPIClient.get_posts_since`: a `None` from `make_request` becomes the
empty list.  `since_datetime` only parametrizes the remote query; the
response itself is the environment's `FetchResult`. -/
def get_posts_since (r : FetchResult) (_since_datetime : Int) : List Post :=
  match make_request r with
  | none => []
  | some posts => posts

/-- `EOMAPIClient.classify_post_access`: premium iff the rendered content
contains the `mepr-unauthorized-excerpt` marker. -/
def classify_post_access (post_data : Post) : String :=
  if post_data.premiumMarker then "premium" else "open"

/-- The fields of `EOMAPIClient.extract_post_metadata` the sync core reads
(`id`, `access_type`); the purely textual fields are elided.  The item's
environment outcome travels with it. -/
structure Metadata where
  id : Option Int
  access_type : String
  outcome : ItemOutcome
deriving DecidableEq

/-- `EOMAPIClient.extract_post_metadata`, restricted to the fields above. -/
def extract_post_metadata (post_data : Post) : Metadata :=
  { id := post_data.id
    access_type := classify_post_access post_data
    outcome := post_data.outcome }

/-- `EOMAPIClient.authenticate`: the stub always reports failure
("Autenticación deshabilitada en esta versión"). -/
def authenticate : Bool := false

/-- The two content-policy flags of `AppConfig` (src/config/settings.py)
that the sync core reads. -/
structure AppConfig where
  process_open_content : Bool
  process_premium_content : Bool
deriving DecidableEq

/-- `EOMScraper._should_process_article`. -/
def should_process_article (cfg : AppConfig) (metadata : Metadata) : Bool :=
  if metadata.access_type = "open" ∧ cfg.process_open_content then true
  else if metadata.access_type = "premium" ∧ cfg.process_premium_content then true
  else false

/-- The premium-content step at the top of `EOMScraper.run`: when premium
processing is requested and `authenticate()` fails, the flag is switched
off for the rest of the run. -/
def effective_config (cfg : AppConfig) : AppConfig :=
  if cfg.process_premium_content then
    if !authenticate then { cfg with process_premium_content := false }
    else cfg
  else cfg

/-- `EOMScraper._get_new_articles` (its post-fetch loop): skip an item whose
`id` is falsy (missing, null, or the integer 0), skip already-processed ids,
extract metadata and keep it only if the content policy accepts it. -/
def get_new_articles (cfg : AppConfig) (s : ScraperState) (raw_posts : List Post) :
    List Metadata :=
  raw_posts.filterMap fun post =>
    match post.id with
    | none => none
    | some post_id =>
      if post_id = 0 then none
      else if is_post_processed s post_id then none
      else
        let metadata := extract_post_metadata post
        if should_process_article cfg metadata then some metadata else none

/-- `EOMScraper._process_articles`: per item, a raised exception or a failed
send leaves the state and the counter alone; a successful send marks the id
processed and counts it.  The `sendOk`/`none` row is unreachable from `run`
(the filter only passes truthy ids) and mirrors the skip rows. -/
def process_articles (s : ScraperState) : List Metadata → ScraperState × Nat
  | [] => (s, 0)
  | metadata :: rest =>
    match metadata.outcome, metadata.id with
    | .sendOk, some post_id =>
      let r := process_articles (mark_post_processed s post_id) rest
      (r.1, r.2 + 1)
    | .sendOk, none => process_articles s rest
    | .exn, _ => process_articles s rest
    | .sendFail, _ => process_articles s rest

/-- One run's environment: the SMTP connectivity test result, the single
fetch, and the `datetime.now(timezone.utc)` samples in program order —
`t_load` when the fetch lower bound is computed, `t_fetch` when the HTTP
request is issued (never read by the code), `t_update` at the
`update_last_check` call, `t_mark` inside `mark_successful_run`. -/
structure RunEnv where
  smtp_ok : Bool
  fetch : FetchResult
  t_load : Int
  t_fetch : Int
  t_update : Int
  t_mark : Int
deriving DecidableEq

/-- Observable outcome of `EOMScraper.run`: the in-memory state at return,
how many times `save_state` ran, the boolean the method returns, and the
count of successfully processed items. -/
structure RunResult where
  state : ScraperState
  saves : Nat
  success : Bool
  processed_count : Nat
deriving DecidableEq

/-- `EOMScraper.run`.  A failed SMTP test returns `False` at once (no save);
an empty candidate list marks the run successful and saves; otherwise the
items are processed and, only when at least one was committed, the watermark
is advanced to the current instant, the run is marked successful and the
retention cleanup runs; either way the state is saved once and `True`
returned.  The `except` branch of the source (unexpected exception) has no
trigger in this environment model and is not represented. -/
def run (cfg : AppConfig) (env : RunEnv) (s : ScraperState) : RunResult :=
  if !env.smtp_ok then
    { state := s, saves := 0, success := false, processed_count := 0 }
  else
    let cfg2 := effective_config cfg
    let last_check := get_last_check_datetime s env.t_load
    let raw_posts := get_posts_since env.fetch last_check
    let new_articles := get_new_articles cfg2 s raw_posts
    if new_articles.isEmpty then
      { state := mark_successful_run s env.t_mark
        saves := 1
        success := true
        processed_count := 0 }
    else
      let r := process_articles s new_articles
      let final_state :=
        if r.2 > 0 then
          cleanup_old_processed_ids
            (mark_successful_run (update_last_check r.1 env.t_update) env.t_mark)
        else r.1
      { state := final_state
        saves := 1
        success := true
        processed_count := r.2 }

/-! Concrete fixtures used by counterexamples and witnesses. -/

/-- Policy: open content on, premium off (the defaults of `AppConfig`). -/
def cfgOpen : AppConfig := { process_open_content := true, process_premium_content := false }

/-- A small base state: watermark at instant 50, nothing processed yet. -/
def stateA : ScraperState :=
  { last_check_timestamp := .iso 50
    processed_post_ids := ∅
    total_posts_processed := 0
    last_successful_run := .empty
    errors_count := 0 }

/-- Environment whose fetch comes back with HTTP status 500. -/
def envC1 : RunEnv :=
  { smtp_ok := true, fetch := .httpError 500
    t_load := 90, t_fetch := 100, t_update := 200, t_mark := 210 }

/-- Environment delivering one open item with id 7; the fetch goes out at
instant 100 but the commit-step clock sample is 200. -/
def envC2 : RunEnv :=
  { smtp_ok := true, fetch := .ok [{ id := some 7, premiumMarker := false, outcome := .sendOk }]
    t_load := 90, t_fetch := 100, t_update := 200, t_mark := 210 }

/-- Three processed ids: above the ceiling 2 but inside its 1.5x hysteresis
band (3 is not greater than 2 * 1.5). -/
def stateC3 : ScraperState :=
  { last_check_timestamp := .empty
    processed_post_ids := {1, 2, 3}
    total_posts_processed := 3
    last_successful_run := .empty
    errors_count := 0 }

/-- Four processed ids: strictly beyond the hysteresis band for ceiling 2. -/
def stateC3w : ScraperState :=
  { last_check_timestamp := .empty
    processed_post_ids := {1, 2, 3, 10}
    total_posts_processed := 4
    last_successful_run := .empty
    errors_count := 0 }

/-- Environment whose SMTP connectivity test fails. -/
def envC5 : RunEnv :=
  { smtp_ok := false, fetch := .ok []
    t_load := 90, t_fetch := 100, t_update := 200, t_mark := 210 }

/-- Two open candidate items whose deliveries both fail. -/
def postsC7 : List Post :=
  [{ id := some 1, premiumMarker := false, outcome := .sendFail },
   { id := some 2, premiumMarker := false, outcome := .sendFail }]

/-- Environment fetching `postsC7`. -/
def envC7 : RunEnv :=
  { smtp_ok := true, fetch := .ok postsC7
    t_load := 90, t_fetch := 100, t_update := 200, t_mark := 210 }

/-- A serialized state object lacking the `last_check_timestamp` key. -/
def dictC9 : StateDict :=
  { last_check_timestamp := none
    processed_post_ids := some [3]
    total_posts_processed := some 1
    last_successful_run := none
    errors_count := none }

/-- A state whose stored watermark string is empty. -/
def stateC9 : ScraperState :=
  { last_check_timestamp := .empty
    processed_post_ids := ∅
    total_posts_processed := 0
    last_successful_run := .empty
    errors_count := 0 }

/-- A feed item whose id is the integer 0 (falsy in Python). -/
def postZero : Post := { id := some 0, premiumMarker := false, outcome := .sendOk }

/-- An ordinary open item around `postZero` in the C10 witness. -/
def postSeven : Post := { id := some 7, premiumMarker := false, outcome := .sendOk }

/-! Helper lemmas shared by the claim theorems. -/

lemma mark_post_processed_fields (s : ScraperState) (post_id : Int) :
    (mark_post_processed s post_id).last_check_timestamp = s.last_check_timestamp ∧
    (mark_post_processed s post_id).errors_count = s.errors_count := by
  unfold mark_post_processed
  split <;> exact ⟨rfl, rfl⟩

lemma process_articles_fields : ∀ (l : List Metadata) (s : ScraperState),
    (process_articles s l).1.last_check_timestamp = s.last_check_timestamp ∧
    (process_articles s l).1.errors_count = s.errors_count
  | [], _ => ⟨rfl, rfl⟩
  | metadata :: rest, s => by
    obtain ⟨mid, mac, mout⟩ := metadata
    cases mout <;> cases mid <;>
      simp only [process_articles] <;>
      first
        | exact process_articles_fields rest s
        | · refine ⟨?_, ?_⟩
            · rw [(process_articles_fields rest _).1, (mark_post_processed_fields s _).1]
            · rw [(process_articles_fields rest _).2, (mark_post_processed_fields s _).2]

lemma process_articles_state_of_count_zero : ∀ (l : List Metadata) (s : ScraperState),
    (process_articles s l).2 = 0 → process_articles s l = (s, 0)
  | [], _, _ => rfl
  | metadata :: rest, s, h => by
    obtain ⟨mid, mac, mout⟩ := metadata
    cases mout <;> cases mid <;> simp only [process_articles] at h ⊢ <;>
      first
        | exact process_articles_state_of_count_zero rest s h
        | exact absurd h (Nat.succ_ne_zero _)

lemma process_articles_allfail : ∀ (l : List Metadata) (s : ScraperState),
    (∀ md ∈ l, md.outcome ≠ .sendOk) → process_articles s l = (s, 0)
  | [], _, _ => rfl
  | metadata :: rest, s, h => by
    obtain ⟨mid, mac, mout⟩ := metadata
    have hhd : ItemOutcome.sendOk ≠ ItemOutcome.sendOk → False := fun hn => hn rfl
    have htl : ∀ md ∈ rest, md.outcome ≠ .sendOk := fun md hm => h md (List.mem_cons_of_mem _ hm)
    cases mout <;> cases mid <;> simp only [process_articles] <;>
      first
        | exact process_articles_allfail rest s htl
        | exact absurd (h _ (List.mem_cons_self _ _)) (by intro hn; exact hn rfl)

lemma cleanup_fields (s : ScraperState) (keep_recent : Nat) :
    (cleanup_old_processed_ids s keep_recent).last_check_timestamp = s.last_check_timestamp ∧
    (cleanup_old_processed_ids s keep_recent).errors_count = s.errors_count := by
  unfold cleanup_old_processed_ids
  split <;> exact ⟨rfl, rfl⟩

/-- Case analysis on the final watermark of a run: either nothing was
committed and the watermark is untouched, or something was committed and it
is the commit-step clock sample. -/
lemma run_last_check_cases (cfg : AppConfig) (env : RunEnv) (s : ScraperState) :
    ((run cfg env s).processed_count = 0 ∧
      (run cfg env s).state.last_check_timestamp = s.last_check_timestamp) ∨
    (0 < (run cfg env s).processed_count ∧
      (run cfg env s).state.last_check_timestamp = .iso env.t_update) := by
  unfold run
  split
  · exact Or.inl ⟨rfl, rfl⟩
  · dsimp only
    split
    · exact Or.inl ⟨rfl, rfl⟩
    · split
      · rename_i hpos
        refine Or.inr ⟨hpos, ?_⟩
        show (cleanup_old_processed_ids _).last_check_timestamp = _
        rw [(cleanup_fields _ _).1]
        rfl
      · rename_i hzero
        exact Or.inl ⟨Nat.eq_zero_of_not_pos hzero, (process_articles_fields _ _).1⟩

/-! Claim theorems. -/

/-- C1, counterexample.  With a working SMTP connection and a fetch that
comes back with HTTP status 500 (a transport failure), the run is still
reported as a success and `errors_count` is not incremented — contradicting
the claim that such a run aborts as a failed run with an incremented
`error_count`. -/
theorem C1_counterexample :
    envC1.fetch.isTransportFailure = true ∧
    (run cfgOpen envC1 stateA).success = true ∧
    (run cfgOpen envC1 stateA).state.errors_count = stateA.errors_count := by
  decide

/-- C1, amended.  A transport failure on the fetch (request exception or
non-200 status) is swallowed by the adapter, which returns the empty list,
so the run completes exactly like an empty successful fetch: reported as a
success, marked as a successful run, state saved once, `errors_count`
unchanged and nothing processed. -/
theorem C1_transport_failure_completes_as_success (cfg : AppConfig) (env : RunEnv)
    (s : ScraperState) (hsmtp : env.smtp_ok = true)
    (hfetch : env.fetch.isTransportFailure = true ∨ env.fetch = .ok []) :
    run cfg env s =
      { state := mark_successful_run s env.t_mark
        saves := 1
        success := true
        processed_count := 0 } := by
  have hposts : get_posts_since env.fetch (get_last_check_datetime s env.t_load) = [] := by
    rcases hfetch with h | h
    · cases hf : env.fetch with
      | ok posts => rw [hf] at h; exact absurd h (by simp [FetchResult.isTransportFailure])
      | httpError code => rfl
      | netExn => rfl
    · rw [h]; rfl
  simp [run, hsmtp, hposts, get_new_articles]

/-- C1, witness for the amended theorem at the concrete inputs of the
counterexample. -/
theorem C1_witness :
    run cfgOpen envC1 stateA =
      { state := mark_successful_run stateA envC1.t_mark
        saves := 1
        success := true
        processed_count := 0 } :=
  C1_transport_failure_completes_as_success cfgOpen envC1 stateA (by decide)
    (Or.inl (by decide))

/-- C5, counterexample.  A run whose pre-fetch SMTP connectivity test fails
returns without any `save_state` call, contradicting the claim that every
path persists the state exactly once. -/
theorem C5_counterexample :
    envC5.smtp_ok = false ∧ ¬ (run cfgOpen envC5 stateA).saves = 1 := by
  decide

/-- C5, amended.  Every path of the run that passes the pre-fetch SMTP
connectivity test persists the state exactly once, at the end of the pass
after all in-memory mutations; the path where that test fails returns a
failure without persisting at all. -/
theorem C5_state_saved_once_unless_smtp_test_fails (cfg : AppConfig) (env : RunEnv)
    (s : ScraperState) :
    (env.smtp_ok = true → (run cfg env s).saves = 1) ∧
    (env.smtp_ok = false → (run cfg env s).saves = 0) := by
  refine ⟨fun hs => ?_, fun hs => ?_⟩ <;> unfold run
  · split
    · rename_i h; rw [hs] at h; exact absurd h (by decide)
    · dsimp only
      split
      · rfl
      · rfl
  · split
    · rfl
    · rename_i h; rw [hs] at h; exact absurd rfl h

/-- C5, witness: a run with a working SMTP connection saves exactly once. -/
theorem C5_witness : (run cfgOpen envC7 stateA).saves = 1 :=
  (C5_state_saved_once_unless_smtp_test_fails cfgOpen envC7 stateA).1 (by decide)

/-- C6.  Evaluation of `load_state` around the failing input: a missing file
and an invalid-JSON file both yield the fresh state (watermark at the
current instant, empty processed set, zero counters) without an error, but a
file whose JSON top level is not an object (e.g. the file `[]`) escapes the
`except (json.JSONDecodeError, KeyError)` clause as an `AttributeError` —
the code bug relative to the claim that malformed content never raises. -/
theorem C6_load_state_behaviour :
    load_state .missing 42 = .ok (create_initial_state 42) ∧
    load_state .invalidJson 42 = .ok (create_initial_state 42) ∧
    (create_initial_state 42).last_check_timestamp = .iso 42 ∧
    (create_initial_state 42).processed_post_ids = ∅ ∧
    (create_initial_state 42).total_posts_processed = 0 ∧
    (create_initial_state 42).errors_count = 0 ∧
    load_state .jsonAtom 42 = .error "AttributeError" :=
  ⟨rfl, rfl, rfl, rfl, rfl, rfl, rfl⟩

/-- C8.  `mark_post_processed` is idempotent: marking an id already in the
set changes nothing, marking a fresh id inserts it and increments the total
by exactly one, and marking twice equals marking once. -/
theorem C8_mark_post_processed_idempotent (s : ScraperState) (post_id : Int) :
    (post_id ∈ s.processed_post_ids → mark_post_processed s post_id = s) ∧
    (post_id ∉ s.processed_post_ids →
      (mark_post_processed s post_id).processed_post_ids =
        insert post_id s.processed_post_ids ∧
      (mark_post_processed s post_id).total_posts_processed =
        s.total_posts_processed + 1) ∧
    mark_post_processed (mark_post_processed s post_id) post_id =
      mark_post_processed s post_id := by
  by_cases h : post_id ∈ s.processed_post_ids
  · have e1 : mark_post_processed s post_id = s := by
      unfold mark_post_processed; rw [if_pos h]
    exact ⟨fun _ => e1, fun hn => absurd h hn, by rw [e1]; exact e1⟩
  · have e2 : mark_post_processed s post_id =
        { s with
          processed_post_ids := insert post_id s.processed_post_ids
          total_posts_processed := s.total_posts_processed + 1 } := by
      unfold mark_post_processed; rw [if_neg h]
    refine ⟨fun hm => absurd hm h, fun _ => by rw [e2]; exact ⟨rfl, rfl⟩, ?_⟩
    rw [e2]
    unfold mark_post_processed
    rw [if_pos (Finset.mem_insert_self post_id s.processed_post_ids)]

/-- C8, witness: marking the fresh id 5 in the empty-set base state
increments the total by one. -/
theorem C8_witness :
    (mark_post_processed stateA 5).processed_post_ids =
      insert 5 stateA.processed_post_ids ∧
    (mark_post_processed stateA 5).total_posts_processed =
      stateA.total_posts_processed + 1 :=
  (C8_mark_post_processed_idempotent stateA 5).2.1 (by decide)

/-- C9.  Deserializing a JSON object lacking `last_check_timestamp` yields
the empty-string watermark, and a loaded state whose watermark string is
empty or unparsable makes the next fetch lower bound the current time minus
one hour — not the current time. -/
theorem C9_fallback_fetch_window (data : StateDict) (s : ScraperState) (now : Int)
    (raw : String) :
    (data.last_check_timestamp = none →
      (from_dict data).last_check_timestamp = .empty) ∧
    ((s.last_check_timestamp = .empty ∨ s.last_check_timestamp = .invalid raw) →
      get_last_check_datetime s now = now - 3600 ∧
      get_last_check_datetime s now ≠ now) := by
  constructor
  · intro h
    simp [from_dict, h]
  · intro h
    have hv : get_last_check_datetime s now = now - 3600 := by
      rcases h with h | h <;> unfold get_last_check_datetime <;> rw [h]
    exact ⟨hv, by rw [hv]; omega⟩

/-- C9, witness: the field-free dictionary gives the empty watermark, and
the empty watermark at instant 5000 gives the lower bound 1400. -/
theorem C9_witness :
    (from_dict dictC9).last_check_timestamp = .empty ∧
    get_last_check_datetime stateC9 5000 = 5000 - 3600 :=
  ⟨(C9_fallback_fetch_window dictC9 stateC9 5000 "x").1 (by decide),
   ((C9_fallback_fetch_window dictC9 stateC9 5000 "x").2 (Or.inl (by decide))).1⟩

/-- C2, counterexample.  In a run that commits one item, the watermark ends
up at the commit-step clock sample (200), not at the instant the fetch was
issued (100) — contradicting the claim that it is set to the fetch-issue
time. -/
theorem C2_counterexample :
    0 < (run cfgOpen envC2 stateA).processed_count ∧
    (run cfgOpen envC2 stateA).state.last_check_timestamp ≠ .iso envC2.t_fetch := by
  decide

/-- C2, amended.  When at least one item is committed the watermark is set
to the current time sampled at the commit step, after all deliveries (not
the fetch-issue time); when zero items are committed it is left unchanged. -/
theorem C2_watermark_set_at_commit_step (cfg : AppConfig) (env : RunEnv)
    (s : ScraperState) :
    (0 < (run cfg env s).processed_count →
      (run cfg env s).state.last_check_timestamp = .iso env.t_update) ∧
    ((run cfg env s).processed_count = 0 →
      (run cfg env s).state.last_check_timestamp = s.last_check_timestamp) := by
  rcases run_last_check_cases cfg env s with ⟨h0, he⟩ | ⟨hp, he⟩
  · exact ⟨fun hx => absurd h0 (by omega), fun _ => he⟩
  · exact ⟨fun _ => he, fun hx => absurd hp (by omega)⟩

/-- C2, witness: the committing run of the counterexample environment ends
with the watermark at the commit-step sample. -/
theorem C2_witness :
    (run cfgOpen envC2 stateA).state.last_check_timestamp = .iso envC2.t_update :=
  (C2_watermark_set_at_commit_step cfgOpen envC2 stateA).1 (by decide)

/-- C4.  The watermark is monotone: a run with zero committed items leaves
it strictly unchanged, and whenever the stored watermark is a valid instant
`t` and the clock has not gone backwards (`t ≤ env.t_update`), the watermark
after the run is an instant `≥ t`. -/
theorem C4_watermark_monotone (cfg : AppConfig) (env : RunEnv) (s : ScraperState) :
    ((run cfg env s).processed_count = 0 →
      (run cfg env s).state.last_check_timestamp = s.last_check_timestamp) ∧
    (∀ t : Int, s.last_check_timestamp = .iso t → t ≤ env.t_update →
      ∃ t2 : Int, (run cfg env s).state.last_check_timestamp = .iso t2 ∧ t ≤ t2) := by
  rcases run_last_check_cases cfg env s with ⟨h0, he⟩ | ⟨hp, he⟩
  · exact ⟨fun _ => he, fun t ht _ => ⟨t, by rw [he, ht], le_refl t⟩⟩
  · exact ⟨fun hx => absurd hp (by omega), fun t _ hle => ⟨env.t_update, he, hle⟩⟩

/-- C4, witness: from watermark 50 and a commit-step sample 200, the run
ends with a watermark that is an instant not less than 50. -/
theorem C4_witness :
    ∃ t2 : Int, (run cfgOpen envC2 stateA).state.last_check_timestamp = .iso t2 ∧
      (50 : Int) ≤ t2 :=
  (C4_watermark_monotone cfgOpen envC2 stateA).2 50 (by decide) (by decide)

/-- C7.  When the fetch yields candidates but every delivery fails, the
run leaves `processed_post_ids`, the watermark and `errors_count` unchanged,
is still reported as a completed successful run, and counts zero items:
item-level failures never escalate to run-level failure. -/
theorem C7_item_failures_do_not_escalate (cfg : AppConfig) (env : RunEnv)
    (s : ScraperState) (posts : List Post)
    (hsmtp : env.smtp_ok = true) (hfetch : env.fetch = .ok posts)
    (hne : get_new_articles (effective_config cfg) s posts ≠ [])
    (hfail : ∀ md ∈ get_new_articles (effective_config cfg) s posts,
      md.outcome ≠ .sendOk) :
    (run cfg env s).state.processed_post_ids = s.processed_post_ids ∧
    (run cfg env s).state.last_check_timestamp = s.last_check_timestamp ∧
    (run cfg env s).state.errors_count = s.errors_count ∧
    (run cfg env s).success = true ∧
    (run cfg env s).processed_count = 0 := by
  have hraw : get_posts_since env.fetch (get_last_check_datetime s env.t_load) = posts := by
    rw [hfetch]; rfl
  have hpa : process_articles s (get_new_articles (effective_config cfg) s posts) = (s, 0) :=
    process_articles_allfail _ s hfail
  unfold run
  split
  · rename_i h; rw [hsmtp] at h; exact absurd h (by decide)
  · dsimp only
    rw [hraw]
    split
    · rename_i h; exact absurd (List.isEmpty_iff.mp h) hne
    · simp [hpa]

/-- C7, witness: two open candidates whose deliveries both fail leave the
base state untouched while the run reports success. -/
theorem C7_witness :
    (run cfgOpen envC7 stateA).state.processed_post_ids = stateA.processed_post_ids ∧
    (run cfgOpen envC7 stateA).state.last_check_timestamp = stateA.last_check_timestamp ∧
    (run cfgOpen envC7 stateA).state.errors_count = stateA.errors_count ∧
    (run cfgOpen envC7 stateA).success = true ∧
    (run cfgOpen envC7 stateA).processed_count = 0 :=
  C7_item_failures_do_not_escalate cfgOpen envC7 stateA postsC7 (by decide) rfl
    (by decide) (by decide)

/-- Removing one item with a falsy id from the raw fetch result does not
change the candidate list. -/
lemma get_new_articles_falsy_id (cfg : AppConfig) (s : ScraperState)
    (l1 l2 : List Post) (p : Post) (hid : p.id = none ∨ p.id = some 0) :
    get_new_articles cfg s (l1 ++ p :: l2) = get_new_articles cfg s (l1 ++ l2) := by
  unfold get_new_articles
  rw [List.filterMap_append, List.filterMap_append]
  congr 1
  rcases hid with h | h <;> simp [List.filterMap_cons, h]

/-- C10.  A feed item whose id is 0 (or missing) is filtered out exactly as
if it were absent from the feed: the candidate list is unchanged and the
whole run (deliveries, markings, counts, final state) is identical to the
run on the feed without that item. -/
theorem C10_zero_id_skipped (cfg : AppConfig) (s : ScraperState)
    (l1 l2 : List Post) (p : Post) (hid : p.id = none ∨ p.id = some 0) :
    (∀ cfg2 : AppConfig,
      get_new_articles cfg2 s (l1 ++ p :: l2) = get_new_articles cfg2 s (l1 ++ l2)) ∧
    (∀ (smtp : Bool) (tl tf tu tm : Int),
      run cfg { smtp_ok := smtp, fetch := .ok (l1 ++ p :: l2),
                t_load := tl, t_fetch := tf, t_update := tu, t_mark := tm } s =
      run cfg { smtp_ok := smtp, fetch := .ok (l1 ++ l2),
                t_load := tl, t_fetch := tf, t_update := tu, t_mark := tm } s) := by
  refine ⟨fun cfg2 => get_new_articles_falsy_id cfg2 s l1 l2 p hid, ?_⟩
  intro smtp tl tf tu tm
  unfold run
  dsimp only [get_posts_since, make_request]
  rw [get_new_articles_falsy_id (effective_config cfg) s l1 l2 p hid]

/-- C10, witness: the zero-id item between two ordinary items is dropped
from the candidate list. -/
theorem C10_witness :
    get_new_articles cfgOpen stateA ([postSeven] ++ postZero :: []) =
      get_new_articles cfgOpen stateA ([postSeven] ++ []) :=
  (C10_zero_id_skipped cfgOpen stateA [postSeven] [] postZero (Or.inr rfl)).1 cfgOpen

/-- C3, counterexample.  With ceiling 2 and three processed ids, trimming
does not fire (3 is within the 1.5x hysteresis band) and the set keeps
size 3 — contradicting the unconditional claim that after `trim` with
ceiling C the set has size at most C. -/
theorem C3_counterexample :
    ¬ ((cleanup_old_processed_ids stateC3 2).processed_post_ids.card ≤ 2) := by
  decide

/-- C3, amended.  When the pre-trim set strictly exceeds the 1.5x hysteresis
threshold, trimming leaves exactly C ids, all drawn from the pre-trim set,
and every kept id is strictly greater than every discarded id (the C
highest-valued ids are kept); otherwise trimming changes nothing, so the
size may remain above C inside the hysteresis band. -/
theorem C3_trim_keeps_top_ids (s : ScraperState) (C : Nat) :
    (2 * s.processed_post_ids.card > 3 * C →
      (cleanup_old_processed_ids s C).processed_post_ids.card = C ∧
      (cleanup_old_processed_ids s C).processed_post_ids ⊆ s.processed_post_ids ∧
      (∀ x ∈ (cleanup_old_processed_ids s C).processed_post_ids,
        ∀ y ∈ s.processed_post_ids,
          y ∉ (cleanup_old_processed_ids s C).processed_post_ids → y < x)) ∧
    (¬ (2 * s.processed_post_ids.card > 3 * C) → cleanup_old_processed_ids s C = s) := by
  constructor
  · intro hthr
    have hset : (cleanup_old_processed_ids s C).processed_post_ids =
        (((s.processed_post_ids.sort (· ≤ ·)).reverse).take C).toFinset := by
      unfold cleanup_old_processed_ids
      rw [if_pos hthr]
    have hnodup : ((s.processed_post_ids.sort (· ≤ ·)).reverse).Nodup :=
      List.nodup_reverse.mpr (Finset.sort_nodup _ s.processed_post_ids)
    have hsorted : ((s.processed_post_ids.sort (· ≤ ·)).reverse).Sorted (· > ·) :=
      List.pairwise_reverse.mpr (Finset.sort_sorted_lt s.processed_post_ids)
    have hlen : ((s.processed_post_ids.sort (· ≤ ·)).reverse).length =
        s.processed_post_ids.card := by
      rw [List.length_reverse, Finset.length_sort]
    have hmeml : ∀ a : Int, a ∈ (s.processed_post_ids.sort (· ≤ ·)).reverse ↔
        a ∈ s.processed_post_ids := by
      intro a
      rw [List.mem_reverse, Finset.mem_sort]
    refine ⟨?_, ?_, ?_⟩
    · rw [hset,
        List.toFinset_card_of_nodup
          ((List.take_sublist C ((s.processed_post_ids.sort (· ≤ ·)).reverse)).nodup hnodup),
        List.length_take, hlen]
      omega
    · intro x hx
      rw [hset, List.mem_toFinset] at hx
      exact (hmeml x).mp (List.mem_of_mem_take hx)
    · intro x hx y hy hyn
      rw [hset, List.mem_toFinset] at hx hyn
      have hyl : y ∈ (s.processed_post_ids.sort (· ≤ ·)).reverse := (hmeml y).mpr hy
      have hydrop : y ∈ ((s.processed_post_ids.sort (· ≤ ·)).reverse).drop C := by
        rcases List.mem_append.mp
            (by rw [List.take_append_drop]; exact hyl :
              y ∈ ((s.processed_post_ids.sort (· ≤ ·)).reverse).take C ++
                ((s.processed_post_ids.sort (· ≤ ·)).reverse).drop C) with h | h
        · exact absurd h hyn
        · exact h
      exact hsorted.rel_of_mem_take_of_mem_drop hx hydrop
  · intro hthr
    unfold cleanup_old_processed_ids
    rw [if_neg hthr]

/-- C3, witness: four processed ids with ceiling 2 exceed the hysteresis
threshold; trimming keeps exactly two ids, both from the original set. -/
theorem C3_witness :
    (cleanup_old_processed_ids stateC3w 2).processed_post_ids.card = 2 ∧
    (cleanup_old_processed_ids stateC3w 2).processed_post_ids ⊆
      stateC3w.processed_post_ids :=
  ⟨((C3_trim_keeps_top_ids stateC3w 2).1 (by decide)).1,
   ((C3_trim_keeps_top_ids stateC3w 2).1 (by decide)).2.1⟩

end EOM
